import Mathlib

/-!
Shallow embedding of `src/main.py` of wrrulosdev/cloudflare-updater.

The program is a dynamic-DNS reconciliation loop: it periodically resolves
the public IP and, on change (or unconditionally on the first successful
iteration), pushes it to one or more Cloudflare DNS records.

Modelling choices:
* Network responses (IP resolution, record lookup, record update) are
  supplied by environments (`IterEnv`, `TargetEnv`): each iteration is a
  pure function of the current state and the environment's responses.
* Observable actions (log lines, HTTP requests, sleeps) are recorded as a
  list of `Event`s in program order.
* All exception paths of the Python code are caught inside the functions
  that raise them (`requests.exceptions.RequestException` handlers), so
  the embedded functions are total; exceptional responses are modelled as
  values (`LookupResult.failure`, `writeOk = false`).
* `os.getenv` is modelled as a function `Env : String → Option String`;
  Python truthiness of an optional string (`if not api_token`) is
  `envTruthy`. The unbounded `while True` of `load_multiple_records` is
  modelled with explicit fuel; every theorem about it assumes fuel at
  least as large as the first incomplete index, which makes the fuel
  irrelevant to the computed value.
* The constant `api_url` field of `CloudflareUpdater` is not modelled: it
  only contributes the fixed URL prefix of every request, which the
  `Event.getRequest`/`Event.putRequest` constructors capture through the
  zone id, record name and record id.
-/

/-- Embeds Python `str.strip()` at the character level: drop whitespace
from both ends. -/
def pyStrip (s : String) : String :=
  String.mk (((s.data.dropWhile Char.isWhitespace).reverse.dropWhile
    Char.isWhitespace).reverse)

/-- Embeds Python `str.lower()` at the character level (ASCII). -/
def pyLower (s : String) : String :=
  String.mk (s.data.map Char.toLower)

/-- Embeds `parse_bool` (src/main.py:22-31): `None` falls back to the
default; any present string is stripped, lowercased and tested for
membership in the truthy set. -/
def parse_bool (value : Option String) (dflt : Bool) : Bool :=
  match value with
  | none => dflt
  | some v => (["1", "true", "yes", "y", "on"] : List String).contains (pyLower (pyStrip v))

/-- One DNS record target, the data of the `CloudflareUpdater` class
(src/main.py:34-47) minus the constant `api_url`. -/
structure CloudflareUpdater where
  api_token : String
  zone_id : String
  record_name : String
  proxied : Bool
deriving DecidableEq

/-- JSON body of the PUT request built in `update_dns_record`
(src/main.py:95-101). -/
structure DnsBody where
  type : String
  name : String
  content : String
  ttl : Nat
  proxied : Bool
deriving DecidableEq

/-- Observable actions of the program, in program order: log lines, the
two provider HTTP requests, and the inter-iteration sleep. -/
inductive Event where
  | logError (msg : String)
  | logWarning (msg : String)
  | logInfo (msg : String)
  | getRequest (zoneId recordName : String)
  | putRequest (zoneId recordId : String) (body : DnsBody)
  | sleep (seconds : Nat)
deriving DecidableEq

/-- True for the record-lookup GET request. -/
def Event.isGet : Event → Bool
  | .getRequest _ _ => true
  | _ => false

/-- True for the record-update PUT request. -/
def Event.isPut : Event → Bool
  | .putRequest _ _ _ => true
  | _ => false

/-- True for any call to the DNS provider API (lookup or write). -/
def Event.isProviderCall (e : Event) : Bool :=
  e.isGet || e.isPut

/-- True for the inter-iteration sleep. -/
def Event.isSleep : Event → Bool
  | .sleep _ => true
  | _ => false

/-- Provider response to the record-lookup GET of `get_dns_record_id`:
either a transport/HTTP failure (`requests.exceptions.RequestException`,
carrying its message) or a successful JSON response whose `result` array
is the given list of record ids (per the interface contract, each record
carries at least an `id` field). -/
inductive LookupResult where
  | failure (msg : String)
  | success (ids : List String)
deriving DecidableEq

/-- Provider responses for one `update_dns_record` invocation: the lookup
response and whether the PUT succeeds (`raise_for_status` passing). -/
structure TargetEnv where
  lookup : LookupResult
  writeOk : Bool

/-- Embeds `CloudflareUpdater.get_dns_record_id` (src/main.py:49-77):
issues the GET, then returns the first record id, or `none` after logging
when the result set is empty or the request failed. -/
def get_dns_record_id (t : CloudflareUpdater) (e : TargetEnv) :
    Option String × List Event :=
  let req : Event := Event.getRequest t.zone_id t.record_name
  match e.lookup with
  | .failure msg =>
      (none, [req, Event.logError ("Error fetching DNS record ID: " ++ msg)])
  | .success [] =>
      (none, [req, Event.logError ("DNS record not found for " ++ t.record_name)])
  | .success (rid :: _) => (some rid, [req])

/-- Embeds `CloudflareUpdater.update_dns_record` (src/main.py:79-111):
looks up the record id; aborts with a log line if it is `None` or empty
(Python `if not record_id`); otherwise issues the PUT with the fixed body
and logs the outcome. Returns the events in program order. -/
def update_dns_record (t : CloudflareUpdater) (e : TargetEnv) (new_ip : String) :
    List Event :=
  let r := get_dns_record_id t e
  match r.1 with
  | none =>
      r.2 ++ [Event.logError ("Unable to update DNS record: Record ID not found for "
        ++ t.record_name)]
  | some rid =>
      if rid = "" then
        r.2 ++ [Event.logError ("Unable to update DNS record: Record ID not found for "
          ++ t.record_name)]
      else
        let body : DnsBody := ⟨"A", t.record_name, new_ip, 120, t.proxied⟩
        r.2 ++ [Event.putRequest t.zone_id rid body] ++
          (if e.writeOk then
            [Event.logInfo ("DNS record updated successfully: " ++ t.record_name
              ++ " -> " ++ new_ip)]
          else
            [Event.logError "Error updating DNS record"])

/-- Mutable state of the reconciliation loop (src/main.py:201, 216):
`current_ipaddress` and the `first` flag. -/
structure LoopState where
  current : String
  first : Bool
deriving DecidableEq

/-- World responses for one loop iteration: the `get_public_ip` result
(`none` models a failed resolution) and, per updater position, the
provider responses for that updater's `update_dns_record` call. -/
structure IterEnv where
  resolve : Option String
  te : Nat → TargetEnv

/-- Default iteration environment, used only to total-ize indexing into an
iteration list; its resolution fails, so it produces no provider calls. -/
def defaultIterEnv : IterEnv :=
  ⟨none, fun _ => ⟨LookupResult.failure "", false⟩⟩

/-- Embeds the `for updater in updaters` body (src/main.py:232-233):
calls `update_dns_record` on every updater in order, each with its own
environment, concatenating the events. -/
def runUpdaters (te : Nat → TargetEnv) (new_ip : String) :
    Nat → List CloudflareUpdater → List Event
  | _, [] => []
  | i, t :: ts => update_dns_record t (te i) new_ip ++ runUpdaters te new_ip (i + 1) ts

/-- Embeds one iteration of the `while True` loop (src/main.py:218-236):
sleep unless `first`; resolve; on failure log and continue; if unchanged
and not `first` log and continue; otherwise update every record, then set
`current_ipaddress` and clear `first`. -/
def stepLoop (targets : List CloudflareUpdater) (st : LoopState) (env : IterEnv) :
    LoopState × List Event :=
  let sleepEvs : List Event := if st.first then [] else [Event.sleep 120]
  match env.resolve with
  | none =>
      (st, sleepEvs ++ [Event.logWarning "Could not get the new IP address. Skipping..."])
  | some newIp =>
      if newIp = st.current ∧ st.first = false then
        (st, sleepEvs ++
          [Event.logInfo "The current IP address is the same as the previous one. Skipping..."])
      else
        (⟨newIp, false⟩, sleepEvs ++ runUpdaters env.te newIp 0 targets)

/-- State of the loop just before iteration `i` (0-indexed), starting from
the bootstrap state `⟨ip0, true⟩` (src/main.py:201, 216). -/
def stateBefore (targets : List CloudflareUpdater) (ip0 : String)
    (envs : List IterEnv) (i : Nat) : LoopState :=
  (envs.take i).foldl (fun s e => (stepLoop targets s e).1) ⟨ip0, true⟩

/-- Last successfully resolved IP in a resolution sequence, with the
bootstrap IP as the starting value. -/
def lastResolved (ip0 : String) (rs : List (Option String)) : String :=
  rs.foldl (fun a r => r.getD a) ip0

/-- Events emitted by iteration `i` of a run that starts from bootstrap
IP `ip0` and feeds the loop the iteration environments `envs`. -/
def iterEvents (targets : List CloudflareUpdater) (ip0 : String)
    (envs : List IterEnv) (i : Nat) : List Event :=
  (stepLoop targets (stateBefore targets ip0 envs i) (envs.getD i defaultIterEnv)).2

/-- Whether iteration `i` makes any call to the DNS provider API. -/
def providerCallsAt (targets : List CloudflareUpdater) (ip0 : String)
    (envs : List IterEnv) (i : Nat) : Bool :=
  (iterEvents targets ip0 envs i).any Event.isProviderCall

/-- Whether iteration `i` performs the 120-second inter-iteration sleep. -/
def sleepsAt (targets : List CloudflareUpdater) (ip0 : String)
    (envs : List IterEnv) (i : Nat) : Bool :=
  (iterEvents targets ip0 envs i).any Event.isSleep

/-- Environment-variable table, modelling `os.getenv`. -/
def Env : Type := String → Option String

/-- Python truthiness of an optional string: `not x` is true exactly when
`x` is `None` or the empty string (src/main.py:149, 177). -/
def envTruthy (v : Option String) : Bool :=
  match v with
  | none => false
  | some s => !(s = "")

/-- Name of the numbered variable `base ++ "_" ++ i`
(src/main.py:143-146). -/
def numberedVar (base : String) (i : Nat) : String :=
  base ++ "_" ++ toString i

/-- Whether all three required numbered variables at index `i` are set and
non-empty, i.e. the condition under which `load_multiple_records` keeps
going at index `i` (src/main.py:149). -/
def tripleComplete (env : Env) (i : Nat) : Bool :=
  envTruthy (env (numberedVar "API_TOKEN" i)) &&
    envTruthy (env (numberedVar "ZONE_ID" i)) &&
    envTruthy (env (numberedVar "RECORD_NAME" i))

/-- The record dictionary appended for index `i`
(src/main.py:152-158); only built when `tripleComplete` holds, so `getD ""`
never supplies the placeholder on that path. -/
def mkNumberedRecord (env : Env) (i : Nat) : CloudflareUpdater :=
  ⟨(env (numberedVar "API_TOKEN" i)).getD "",
   (env (numberedVar "ZONE_ID" i)).getD "",
   (env (numberedVar "RECORD_NAME" i)).getD "",
   parse_bool (env (numberedVar "PROXIED" i)) true⟩

/-- Embeds the `while True` of `load_multiple_records` (src/main.py:142-159)
starting at index `i`: append the record at each complete index and stop at
the first incomplete one. The Python loop is unbounded; `fuel` bounds the
recursion and is irrelevant whenever it reaches the first incomplete
index. -/
def load_records_from (env : Env) : Nat → Nat → List CloudflareUpdater
  | _, 0 => []
  | i, fuel + 1 =>
      if tripleComplete env i then
        mkNumberedRecord env i :: load_records_from env (i + 1) fuel
      else []

/-- Embeds `load_multiple_records` (src/main.py:130-161): enumeration
starts at index 1. -/
def load_multiple_records (env : Env) (fuel : Nat) : List CloudflareUpdater :=
  load_records_from env 1 fuel

/-- Whether the three unnumbered variables are set and non-empty
(src/main.py:177). -/
def unnumberedComplete (env : Env) : Bool :=
  envTruthy (env "API_TOKEN") && envTruthy (env "ZONE_ID") &&
    envTruthy (env "RECORD_NAME")

/-- The single unnumbered record dictionary (src/main.py:179-184). -/
def mkUnnumberedRecord (env : Env) : CloudflareUpdater :=
  ⟨(env "API_TOKEN").getD "", (env "ZONE_ID").getD "",
   (env "RECORD_NAME").getD "", parse_bool (env "PROXIED") true⟩

/-- Outcome of the startup section of `loop` (src/main.py:164-216), before
the `while True`: exit(1) for missing configuration, exit(1) for a failed
first resolution, or entry into the steady loop with the updater list and
the bootstrap IP. -/
inductive StartupResult where
  | exitConfig
  | exitFirstResolve
  | run (targets : List CloudflareUpdater) (ip0 : String)
deriving DecidableEq

/-- Process exit code produced by the startup section, `none` when the
process proceeds into the loop. Both exits are `sys.exit(1)`
(src/main.py:198, 205). -/
def startupExitCode : StartupResult → Option Nat
  | .exitConfig => some 1
  | .exitFirstResolve => some 1
  | .run _ _ => none

/-- Embeds the startup section of `loop` (src/main.py:164-216): load the
numbered records; if none, fall back to the unnumbered triple; if still no
record, exit(1) before any resolution; then resolve once (`resolve0` is
the response) and exit(1) on failure, else enter the loop. -/
def startup (env : Env) (fuel : Nat) (resolve0 : Option String) : StartupResult :=
  let numbered := load_multiple_records env fuel
  let records :=
    if numbered.isEmpty then
      if unnumberedComplete env then [mkUnnumberedRecord env] else []
    else numbered
  if records.isEmpty then StartupResult.exitConfig
  else
    match resolve0 with
    | none => StartupResult.exitFirstResolve
    | some ip => StartupResult.run records ip

/-- Sample record target used by concrete witnesses. -/
def sampleTarget : CloudflareUpdater :=
  ⟨"tok", "zoneA", "example.com", true⟩

/-- Second sample record target used by concrete witnesses. -/
def sampleTargetB : CloudflareUpdater :=
  ⟨"tok2", "zoneB", "b.example.com", false⟩

/-- Per-target environment in which the lookup succeeds with one record
and the write succeeds. -/
def happyTe : TargetEnv :=
  ⟨LookupResult.success ["rid1"], true⟩

/-- Per-target environment in which the lookup fails with a transport
error. -/
def failTe : TargetEnv :=
  ⟨LookupResult.failure "timeout", false⟩

/-- Iteration environment with a given resolution and all-happy targets. -/
def happyEnv (r : Option String) : IterEnv :=
  ⟨r, fun _ => happyTe⟩

/-- Two-iteration trace used by the counterexamples to C1 and C3: the
first steady iteration's resolution fails, the second resolves the
bootstrap IP again. -/
def cexEnvs : List IterEnv :=
  [happyEnv none, happyEnv (some "1.1.1.1")]

theorem update_filter_get (t : CloudflareUpdater) (e : TargetEnv) (ip : String) :
    (update_dns_record t e ip).filter Event.isGet =
      [Event.getRequest t.zone_id t.record_name] := by
  unfold update_dns_record get_dns_record_id
  cases e.lookup with
  | failure msg => simp [Event.isGet]
  | success ids =>
    cases ids with
    | nil => simp [Event.isGet]
    | cons rid rest =>
      by_cases h : rid = ""
      · simp [h, Event.isGet]
      · cases hw : e.writeOk <;> simp [h, hw, Event.isGet]

theorem update_no_sleep (t : CloudflareUpdater) (e : TargetEnv) (ip : String) :
    (update_dns_record t e ip).any Event.isSleep = false := by
  unfold update_dns_record get_dns_record_id
  cases e.lookup with
  | failure msg => simp [Event.isSleep]
  | success ids =>
    cases ids with
    | nil => simp [Event.isSleep]
    | cons rid rest =>
      by_cases h : rid = ""
      · simp [h, Event.isSleep]
      · cases hw : e.writeOk <;> simp [h, hw, Event.isSleep]

theorem runUpdaters_filter_get (te : Nat → TargetEnv) (ip : String) :
    ∀ (ts : List CloudflareUpdater) (i : Nat),
      (runUpdaters te ip i ts).filter Event.isGet =
        ts.map (fun t => Event.getRequest t.zone_id t.record_name) := by
  intro ts
  induction ts with
  | nil => intro i; simp [runUpdaters]
  | cons t ts ih =>
    intro i
    simp [runUpdaters, List.filter_append, update_filter_get, ih]

theorem runUpdaters_no_sleep (te : Nat → TargetEnv) (ip : String) :
    ∀ (ts : List CloudflareUpdater) (i : Nat),
      (runUpdaters te ip i ts).any Event.isSleep = false := by
  intro ts
  induction ts with
  | nil => intro i; simp [runUpdaters]
  | cons t ts ih =>
    intro i
    simp [runUpdaters, List.any_append, update_no_sleep, ih]

theorem stepLoop_state (targets : List CloudflareUpdater) (st : LoopState)
    (env : IterEnv) :
    (stepLoop targets st env).1 =
      match env.resolve with
      | none => st
      | some ip => ⟨ip, false⟩ := by
  unfold stepLoop
  cases env.resolve with
  | none => simp
  | some ip =>
    by_cases h : ip = st.current ∧ st.first = false
    · cases st with
      | mk cur fst =>
        obtain ⟨h1, h2⟩ := h
        simp_all
    · simp [h]

theorem foldl_stepLoop (targets : List CloudflareUpdater) :
    ∀ (envs : List IterEnv) (st : LoopState),
      envs.foldl (fun s e => (stepLoop targets s e).1) st =
        ⟨lastResolved st.current (envs.map IterEnv.resolve),
         st.first && (envs.map IterEnv.resolve).all Option.isNone⟩ := by
  intro envs
  induction envs with
  | nil => intro st; cases st; simp [lastResolved]
  | cons e es ih =>
    intro st
    have hstep := stepLoop_state targets st e
    cases hr : e.resolve with
    | none =>
      rw [hr] at hstep
      simp only [List.foldl_cons, hstep, ih, List.map_cons, hr]
      simp [lastResolved]
    | some ip =>
      rw [hr] at hstep
      simp only [List.foldl_cons, hstep, ih, List.map_cons, hr]
      simp [lastResolved]

theorem stateBefore_eq (targets : List CloudflareUpdater) (ip0 : String)
    (envs : List IterEnv) (i : Nat) :
    stateBefore targets ip0 envs i =
      ⟨lastResolved ip0 ((envs.take i).map IterEnv.resolve),
       ((envs.take i).map IterEnv.resolve).all Option.isNone⟩ := by
  unfold stateBefore
  rw [foldl_stepLoop]
  simp

theorem all_isNone_eq (rs : List (Option String)) :
    rs.all Option.isNone = !rs.any Option.isSome := by
  induction rs with
  | nil => rfl
  | cons r rs ih =>
    cases r <;> simp [ih]

theorem update_any_provider (t : CloudflareUpdater) (e : TargetEnv) (ip : String) :
    (update_dns_record t e ip).any Event.isProviderCall = true := by
  unfold update_dns_record get_dns_record_id
  cases e.lookup with
  | failure msg => simp [Event.isProviderCall, Event.isGet, Event.isPut]
  | success ids =>
    cases ids with
    | nil => simp [Event.isProviderCall, Event.isGet, Event.isPut]
    | cons rid rest =>
      by_cases h : rid = ""
      · simp [h, Event.isProviderCall, Event.isGet, Event.isPut]
      · cases hw : e.writeOk <;> simp [h, hw, Event.isProviderCall, Event.isGet, Event.isPut]

/-- Claim C4: `parse_bool` is true exactly on stripped-lowercased members
of the truthy set, and defaults to true both when unset and when set to an
unrecognized string. The code contradicts the second part and its own
docstring: a set-but-unrecognized value such as `"maybe"` yields `false`,
not the default `true`; only `None` falls back to the default. The
recognized values and the unset case behave as claimed. -/
theorem parse_bool_unrecognized_is_false :
    parse_bool (some "maybe") true = false ∧
    parse_bool none true = true ∧
    parse_bool (some " TRUE ") true = true ∧
    parse_bool (some "on") true = true ∧
    parse_bool (some "0") true = false := by
  decide

/-- Claim C7: when the record-id lookup yields a transport failure or an
empty result set, `update_dns_record` issues no PUT request, logs a
failure naming the record, and in the empty-result case additionally logs
the not-found message from the lookup. -/
theorem synchronize_aborts_without_write (t : CloudflareUpdater) (e : TargetEnv)
    (ip : String)
    (h : (∃ m, e.lookup = LookupResult.failure m) ∨ e.lookup = LookupResult.success []) :
    (update_dns_record t e ip).filter Event.isPut = [] ∧
    Event.logError ("Unable to update DNS record: Record ID not found for "
      ++ t.record_name) ∈ update_dns_record t e ip ∧
    (e.lookup = LookupResult.success [] →
      Event.logError ("DNS record not found for " ++ t.record_name)
        ∈ update_dns_record t e ip) := by
  rcases h with ⟨m, hm⟩ | hm
  · unfold update_dns_record get_dns_record_id
    rw [hm]
    simp [Event.isPut, hm]
  · unfold update_dns_record get_dns_record_id
    rw [hm]
    simp [Event.isPut, hm]

/-- Witness for C7: a lookup returning zero records for the sample target
yields no PUT and both log lines. -/
theorem synchronize_aborts_without_write_witness :
    (update_dns_record sampleTarget ⟨LookupResult.success [], true⟩ "5.5.5.5").filter
      Event.isPut = [] ∧
    Event.logError "Unable to update DNS record: Record ID not found for example.com"
      ∈ update_dns_record sampleTarget ⟨LookupResult.success [], true⟩ "5.5.5.5" ∧
    Event.logError "DNS record not found for example.com"
      ∈ update_dns_record sampleTarget ⟨LookupResult.success [], true⟩ "5.5.5.5" := by
  have h := synchronize_aborts_without_write sampleTarget
    ⟨LookupResult.success [], true⟩ "5.5.5.5" (Or.inr rfl)
  exact ⟨h.1, h.2.1, h.2.2 rfl⟩

/-- Claim C8: a `update_dns_record` invocation that reaches the write uses
the id of the first record in the provider result set and issues exactly
one PUT whose body is type "A", the target's record name, the fresh IP,
ttl 120 and the target's proxy flag. -/
theorem synchronize_write_request (t : CloudflareUpdater) (e : TargetEnv)
    (ip rid : String) (rest : List String)
    (h1 : e.lookup = LookupResult.success (rid :: rest)) (h2 : rid ≠ "") :
    (update_dns_record t e ip).filter Event.isPut =
      [Event.putRequest t.zone_id rid ⟨"A", t.record_name, ip, 120, t.proxied⟩] := by
  unfold update_dns_record get_dns_record_id
  rw [h1]
  cases hw : e.writeOk <;> simp [h2, hw, Event.isPut]

/-- Witness for C8: a lookup answering with the single record id "rid1"
produces exactly one PUT carrying that id and the fixed body. -/
theorem synchronize_write_request_witness :
    (update_dns_record sampleTarget happyTe "3.3.3.3").filter Event.isPut =
      [Event.putRequest "zoneA" "rid1" ⟨"A", "example.com", "3.3.3.3", 120, true⟩] := by
  exact synchronize_write_request sampleTarget happyTe "3.3.3.3" "rid1" [] rfl (by decide)

/-- Claim C5: an iteration whose resolution fails changes no
reconciliation state (neither `current_ipaddress` nor `first`) and makes
no provider call, neither a record-id lookup nor a write. -/
theorem resolution_failure_iteration (targets : List CloudflareUpdater)
    (st : LoopState) (env : IterEnv) (h : env.resolve = none) :
    (stepLoop targets st env).1 = st ∧
    (stepLoop targets st env).2.filter Event.isProviderCall = [] := by
  unfold stepLoop
  rw [h]
  cases hf : st.first <;>
    simp [Event.isProviderCall, Event.isGet, Event.isPut]

/-- Witness for C5: a failed resolution from a post-bootstrap state leaves
the state untouched and issues no provider call. -/
theorem resolution_failure_iteration_witness :
    (stepLoop [sampleTarget] ⟨"1.1.1.1", false⟩ (happyEnv none)).1 =
      ⟨"1.1.1.1", false⟩ ∧
    (stepLoop [sampleTarget] ⟨"1.1.1.1", false⟩ (happyEnv none)).2.filter
      Event.isProviderCall = [] := by
  exact resolution_failure_iteration [sampleTarget] ⟨"1.1.1.1", false⟩
    (happyEnv none) rfl

/-- Claim C2: an iteration that attempts provider writes (resolution
succeeded and either `first` is set or the IP changed) always ends with
`current_ipaddress` set to the new IP and `first` cleared, for every
combination of per-target outcomes, failures included; afterwards, any
iteration resolving the same IP leaves the state unchanged and makes no
provider call, so a failed per-record write is not re-attempted while the
resolved IP stays unchanged. -/
theorem write_iteration_advances_state (targets : List CloudflareUpdater)
    (st : LoopState) (env : IterEnv) (ip : String)
    (hres : env.resolve = some ip) (_hw : st.first = true ∨ ip ≠ st.current) :
    (stepLoop targets st env).1 = ⟨ip, false⟩ ∧
    ∀ env2 : IterEnv, env2.resolve = some ip →
      (stepLoop targets ⟨ip, false⟩ env2).1 = ⟨ip, false⟩ ∧
      (stepLoop targets ⟨ip, false⟩ env2).2.filter Event.isProviderCall = [] := by
  constructor
  · have hstep := stepLoop_state targets st env
    rw [hres] at hstep
    exact hstep
  · intro env2 h2
    constructor
    · have hstep := stepLoop_state targets ⟨ip, false⟩ env2
      rw [h2] at hstep
      exact hstep
    · unfold stepLoop
      rw [h2]
      simp [Event.isProviderCall, Event.isGet, Event.isPut]

/-- Witness for C2: after the write iteration for "1.1.1.1" (from previous
IP "0.0.0.0"), the state is `⟨"1.1.1.1", false⟩`, and a following
iteration resolving "1.1.1.1" again keeps the state and makes no provider
call. -/
theorem write_iteration_advances_state_witness :
    (stepLoop [sampleTarget] ⟨"0.0.0.0", false⟩ (happyEnv (some "1.1.1.1"))).1 =
      ⟨"1.1.1.1", false⟩ ∧
    (stepLoop [sampleTarget] ⟨"1.1.1.1", false⟩ (happyEnv (some "1.1.1.1"))).1 =
      ⟨"1.1.1.1", false⟩ ∧
    (stepLoop [sampleTarget] ⟨"1.1.1.1", false⟩ (happyEnv (some "1.1.1.1"))).2.filter
      Event.isProviderCall = [] := by
  have h := write_iteration_advances_state [sampleTarget] ⟨"0.0.0.0", false⟩
    (happyEnv (some "1.1.1.1")) "1.1.1.1" rfl (Or.inr (by decide))
  exact ⟨h.1, (h.2 (happyEnv (some "1.1.1.1")) rfl).1,
    (h.2 (happyEnv (some "1.1.1.1")) rfl).2⟩

/-- Claim C6: in an iteration that attempts provider writes, a record-id
lookup is issued for every target in the record set, in order, whatever
the per-target outcomes are — so one target's lookup or write failure
never prevents the remaining targets' synchronize calls — and the
iteration still completes normally, ending in the updated state. -/
theorem targets_all_attempted (targets : List CloudflareUpdater)
    (st : LoopState) (env : IterEnv) (ip : String)
    (hres : env.resolve = some ip) (hw : st.first = true ∨ ip ≠ st.current) :
    (stepLoop targets st env).2.filter Event.isGet =
      targets.map (fun t => Event.getRequest t.zone_id t.record_name) ∧
    (stepLoop targets st env).1 = ⟨ip, false⟩ := by
  have hcond : ¬(ip = st.current ∧ st.first = false) := by
    rcases hw with h1 | h1
    · intro hc
      rw [h1] at hc
      exact absurd hc.2 (by simp)
    · intro hc
      exact h1 hc.1
  constructor
  · unfold stepLoop
    rw [hres]
    cases hf : st.first with
    | true => simp [hf, List.filter_append, Event.isGet, runUpdaters_filter_get]
    | false =>
      have hne : ip ≠ st.current := fun he => hcond ⟨he, hf⟩
      simp [hf, hne, List.filter_append, Event.isGet, runUpdaters_filter_get]
  · have hstep := stepLoop_state targets st env
    rw [hres] at hstep
    exact hstep

/-- Iteration environment used by the C6 witness: resolution succeeds but
the first target's lookup fails with a transport error while the second
target's provider responses are fine. -/
def mixedEnv : IterEnv :=
  ⟨some "2.2.2.2", fun i => if i = 0 then failTe else happyTe⟩

/-- Witness for C6: with two targets and the first one's lookup failing,
both targets' lookups are still issued, in order, and the iteration ends
in the updated state. -/
theorem targets_all_attempted_witness :
    (stepLoop [sampleTarget, sampleTargetB] ⟨"1.1.1.1", false⟩ mixedEnv).2.filter
      Event.isGet =
      [Event.getRequest "zoneA" "example.com", Event.getRequest "zoneB" "b.example.com"] ∧
    (stepLoop [sampleTarget, sampleTargetB] ⟨"1.1.1.1", false⟩ mixedEnv).1 =
      ⟨"2.2.2.2", false⟩ := by
  have h := targets_all_attempted [sampleTarget, sampleTargetB] ⟨"1.1.1.1", false⟩
    mixedEnv "2.2.2.2" rfl (Or.inr (by decide))
  exact ⟨h.1.trans (by decide), h.2⟩

theorem runUpdaters_any_provider (te : Nat → TargetEnv) (ip : String)
    (t0 : CloudflareUpdater) (ts : List CloudflareUpdater) (i : Nat) :
    (runUpdaters te ip i (t0 :: ts)).any Event.isProviderCall = true := by
  simp [runUpdaters, List.any_append, update_any_provider]

/-- Claim C3 (amended): iteration `i` performs the 120-second sleep if and
only if some earlier steady iteration resolved successfully — the `first`
flag is only cleared by a successful iteration, so before the first
successful resolution no iteration sleeps, and after it every iteration
sleeps, failed-resolution iterations included. -/
theorem iteration_sleep_iff (targets : List CloudflareUpdater) (ip0 : String)
    (envs : List IterEnv) (i : Nat) :
    sleepsAt targets ip0 envs i = true ↔
      ((envs.take i).map IterEnv.resolve).any Option.isSome = true := by
  unfold sleepsAt iterEvents
  rw [stateBefore_eq]
  set rs := (envs.take i).map IterEnv.resolve with hrs
  unfold stepLoop
  cases hany : rs.any Option.isSome with
  | true =>
    have hall : rs.all Option.isNone = false := by
      rw [all_isNone_eq, hany]
      rfl
    cases hr : (envs.getD i defaultIterEnv).resolve with
    | none => simp [hall, Event.isSleep]
    | some ip =>
      by_cases hc : ip = lastResolved ip0 rs
      · simp [hall, hc, Event.isSleep]
      · simp [hall, hc, Event.isSleep]
  | false =>
    have hall : rs.all Option.isNone = true := by
      rw [all_isNone_eq, hany]
      rfl
    cases hr : (envs.getD i defaultIterEnv).resolve with
    | none => simp [hall, Event.isSleep]
    | some ip => simp [hall, Event.isSleep, runUpdaters_no_sleep]

/-- Counterexample to claim C3 as stated: in the trace whose first steady
iteration fails to resolve, the second iteration — not the first, and
immediately following a failed-resolution iteration — performs no
inter-iteration sleep, because the `first` flag is still set. -/
theorem iteration_sleep_cex :
    sleepsAt [sampleTarget] "1.1.1.1" cexEnvs 1 = false ∧
    (1 : Nat) ≠ 0 ∧
    (cexEnvs.getD 0 defaultIterEnv).resolve = none := by
  refine ⟨by decide, by decide, by decide⟩

/-- Claim C1 (amended): with a non-empty record set, iteration `i` makes a
provider call (record-id lookup or write) if and only if its resolution
succeeds and either no earlier steady iteration resolved successfully (the
`first` flag is still set) or the resolved IP differs from the immediately
preceding successfully-resolved IP (the bootstrap IP when no steady
iteration resolved before). -/
theorem provider_call_iff (targets : List CloudflareUpdater) (ip0 : String)
    (envs : List IterEnv) (i : Nat) (hne : targets ≠ []) :
    providerCallsAt targets ip0 envs i = true ↔
      ∃ ip, (envs.getD i defaultIterEnv).resolve = some ip ∧
        (((envs.take i).map IterEnv.resolve).all Option.isNone = true ∨
          ip ≠ lastResolved ip0 ((envs.take i).map IterEnv.resolve)) := by
  obtain ⟨t0, ts, rfl⟩ : ∃ t0 ts, targets = t0 :: ts := by
    cases targets with
    | nil => exact absurd rfl hne
    | cons a l => exact ⟨a, l, rfl⟩
  unfold providerCallsAt iterEvents
  rw [stateBefore_eq]
  set rs := (envs.take i).map IterEnv.resolve with hrs
  unfold stepLoop
  cases hr : (envs.getD i defaultIterEnv).resolve with
  | none =>
    cases hall : rs.all Option.isNone <;>
      simp [Event.isProviderCall, Event.isGet, Event.isPut]
  | some ip =>
    cases hall : rs.all Option.isNone with
    | true =>
      constructor
      · intro _
        exact ⟨ip, rfl, Or.inl rfl⟩
      · intro _
        simp [hall, Event.isProviderCall, List.any_append,
          runUpdaters_any_provider]
    | false =>
      by_cases hc : ip = lastResolved ip0 rs
      · constructor
        · intro h
          exfalso
          revert h
          simp [hall, hc, Event.isProviderCall, Event.isGet, Event.isPut]
        · rintro ⟨ip2, hip2, hdis⟩
          exfalso
          have hips : ip2 = ip := (Option.some.inj hip2).symm
          rcases hdis with h1 | h1
          · exact absurd h1 (by simp)
          · exact h1 (by rw [hips]; exact hc)
      · constructor
        · intro _
          exact ⟨ip, rfl, Or.inr hc⟩
        · intro _
          simp [hall, hc, Event.isProviderCall, List.any_append,
            runUpdaters_any_provider]

/-- Counterexample to claim C1 as stated: in the trace whose first steady
iteration fails to resolve, the second iteration — not the first — makes a
provider call even though its resolved IP equals the immediately preceding
successfully-resolved IP (the bootstrap IP), because the `first` flag is
only cleared by a successful iteration. -/
theorem provider_call_cex :
    providerCallsAt [sampleTarget] "1.1.1.1" cexEnvs 1 = true ∧
    (1 : Nat) ≠ 0 ∧
    (cexEnvs.getD 1 defaultIterEnv).resolve =
      some (lastResolved "1.1.1.1" ((cexEnvs.take 1).map IterEnv.resolve)) := by
  refine ⟨by decide, by decide, by decide⟩

/-- Witness for C1 (amended): on the very first steady iteration, with one
target and a successful resolution of a changed IP, a provider call is
made. -/
theorem provider_call_iff_witness :
    providerCallsAt [sampleTarget] "1.1.1.1" [happyEnv (some "2.2.2.2")] 0 = true := by
  exact (provider_call_iff [sampleTarget] "1.1.1.1" [happyEnv (some "2.2.2.2")] 0
    (by simp)).mpr ⟨"2.2.2.2", rfl, Or.inl rfl⟩

theorem load_cons_of_complete (env : Env) (f : Nat) (h : tripleComplete env 1 = true) :
    load_multiple_records env (f + 1) =
      mkNumberedRecord env 1 :: load_records_from env 2 f := by
  simp [load_multiple_records, load_records_from, h]

theorem load_nil_of_incomplete (env : Env) (f : Nat)
    (h : tripleComplete env 1 = false) :
    load_multiple_records env (f + 1) = [] := by
  simp [load_multiple_records, load_records_from, h]

/-- Claim C9: the startup section exits with code 1 exactly when no record
is configured — the numbered enumeration yields nothing (index 1 is
incomplete) and the unnumbered triple is incomplete — or the very first
resolution fails; the missing-configuration exit is taken before any
resolution is consulted, and whenever the process instead enters the loop
it does so with a non-empty record set and the successfully resolved
bootstrap IP. Failures inside the loop are modelled by the total function
`stepLoop` and can never exit. -/
theorem startup_exit_iff (env : Env) (fuel : Nat) (r0 : Option String)
    (hf : 0 < fuel) :
    (startupExitCode (startup env fuel r0) = some 1 ↔
      (tripleComplete env 1 = false ∧ unnumberedComplete env = false) ∨ r0 = none) ∧
    (startup env fuel r0 = StartupResult.exitConfig ↔
      tripleComplete env 1 = false ∧ unnumberedComplete env = false) ∧
    (∀ ts ip, startup env fuel r0 = StartupResult.run ts ip →
      r0 = some ip ∧ ts ≠ []) := by
  obtain ⟨f, rfl⟩ : ∃ f, fuel = f + 1 := ⟨fuel - 1, by omega⟩
  cases h1 : tripleComplete env 1 with
  | true =>
    have hload := load_cons_of_complete env f h1
    cases r0 with
    | none => simp [startup, hload, startupExitCode]
    | some ip => simp [startup, hload, startupExitCode]
  | false =>
    have hload := load_nil_of_incomplete env f h1
    cases h2 : unnumberedComplete env with
    | true =>
      cases r0 with
      | none => simp [startup, hload, h2, startupExitCode]
      | some ip => simp [startup, hload, h2, startupExitCode]
    | false =>
      cases r0 with
      | none => simp [startup, hload, h2, startupExitCode]
      | some ip => simp [startup, hload, h2, startupExitCode]

/-- Environment with no variable set, used by the C9 witness. -/
def emptyEnv : Env := fun _ => none

/-- Witness for C9: with an empty environment the startup section exits
with code 1 even though the first resolution succeeds, and the exit is the
missing-configuration one. -/
theorem startup_exit_iff_witness :
    startupExitCode (startup emptyEnv 1 (some "1.1.1.1")) = some 1 ∧
    startup emptyEnv 1 (some "1.1.1.1") = StartupResult.exitConfig := by
  have h := startup_exit_iff emptyEnv 1 (some "1.1.1.1") (by decide)
  exact ⟨h.1.mpr (Or.inl ⟨by decide, by decide⟩), h.2.1.mpr ⟨by decide, by decide⟩⟩

theorem load_records_from_eq (env : Env) :
    ∀ (fuel start i : Nat), start ≤ i → i - start ≤ fuel →
      (∀ j, start ≤ j → j < i → tripleComplete env j = true) →
      tripleComplete env i = false →
      load_records_from env start fuel =
        (List.range' start (i - start)).map (mkNumberedRecord env) := by
  intro fuel
  induction fuel with
  | zero =>
    intro start i h1 h2 _ _
    have hsi : i - start = 0 := by omega
    simp [load_records_from, hsi]
  | succ f ih =>
    intro start i h1 h2 h3 h4
    by_cases hs : start = i
    · subst hs
      have hsi : start - start = 0 := by omega
      simp [load_records_from, h4, hsi]
    · have hlt : start < i := by omega
      have hc : tripleComplete env start = true := h3 start le_rfl hlt
      have hrange : i - start = (i - (start + 1)) + 1 := by omega
      rw [hrange, List.range'_succ, List.map_cons]
      simp only [load_records_from, hc, if_true]
      rw [ih (start + 1) i (by omega) (by omega)
        (fun j hj1 hj2 => h3 j (by omega) hj2) h4]

/-- Claim C10: if every numbered index below `i` is fully specified but
index `i` has one of its three required variables unset or empty, the
loader returns exactly the records for indices `1..i-1` and silently drops
everything from `i` on (it emits nothing: the loader produces no events in
this model); when the gap is at index 1 the loader returns nothing and the
startup section falls back to the unnumbered configuration. -/
theorem numbered_gap_truncates (env : Env) (i fuel : Nat)
    (h1 : 1 ≤ i) (h2 : i ≤ fuel)
    (h3 : ∀ j, 1 ≤ j → j < i → tripleComplete env j = true)
    (h4 : tripleComplete env i = false) :
    load_multiple_records env fuel =
      (List.range' 1 (i - 1)).map (mkNumberedRecord env) ∧
    (i = 1 → ∀ ip, unnumberedComplete env = true →
      startup env fuel (some ip) = StartupResult.run [mkUnnumberedRecord env] ip) := by
  constructor
  · exact load_records_from_eq env fuel 1 i h1 (by omega) h3 h4
  · intro hi ip hu
    subst hi
    have hload : load_multiple_records env fuel = [] := by
      unfold load_multiple_records
      rw [load_records_from_eq env fuel 1 1 le_rfl (by omega) h3 h4]
      simp
    simp [startup, hload, hu]

/-- Environment used by the C10 witness: index 1 fully specified, index 2
partially specified (its API token set but its zone id and record name
unset). -/
def gapEnv : Env := fun s =>
  if s = "API_TOKEN_1" then some "t1"
  else if s = "ZONE_ID_1" then some "z1"
  else if s = "RECORD_NAME_1" then some "r1"
  else if s = "API_TOKEN_2" then some "t2"
  else none

/-- Witness for C10: with `gapEnv`, the loader returns exactly the index-1
record; the partially specified index 2 is dropped. -/
theorem numbered_gap_truncates_witness :
    load_multiple_records gapEnv 2 = [mkNumberedRecord gapEnv 1] := by
  have h := numbered_gap_truncates gapEnv 2 2 (by decide) (by decide)
    (by
      intro j hj1 hj2
      have hj : j = 1 := by omega
      rw [hj]
      decide)
    (by decide)
  exact h.1.trans (by decide)
